import Mathlib

/-!
Shallow embedding of the VeriFlow client-side job orchestration layer
(static/js/app.js and static/js/api.js): URL validation, poll-mode job
completion (`pollJobCompletion`), the reconnecting stream client
(`streamJobProgress`), the launch phases of `fetchArticleFromUrl` and
`runLLMVerification`, and the generic-error suppression check of
`processContent`.  Network interaction is modelled by scripting the
responses the backend returns (one `JobRecord` per poll, one event list
per stream connection attempt); real time is idealised so that each poll
cycle advances the clock by exactly the poll interval.
-/

namespace Veriflow

/-- Substring matching at the head of a character list (JS
`String.prototype.includes` helper). -/
def matchesAt : List Char → List Char → Bool
  | [], _ => true
  | _ :: _, [] => false
  | p :: ps, c :: cs => p == c && matchesAt ps cs

/-- Substring containment on character lists. -/
def hasSub (pat : List Char) : List Char → Bool
  | [] => matchesAt pat []
  | c :: cs => matchesAt pat (c :: cs) || hasSub pat cs

/-- JS `s.includes(pat)`: `pat` occurs as a contiguous substring of `s`. -/
def strIncludes (s pat : String) : Bool :=
  hasSub pat.toList s.toList

/-- JS truthiness of an optional string field: `undefined` and the empty
string are falsy. -/
def truthyS : Option String → Bool
  | none => false
  | some s => !(s = "")

/-- JS `a || b` on an optional string `a` with default `b`. -/
def orTruthy (o : Option String) (d : String) : String :=
  match o with
  | some s => if s = "" then d else s
  | none => d

/-- A JavaScript `Error` value.  The code under verification only ever
constructs errors with `new Error(msg)`, so the `name` field (the JS
error "kind") records the constructor used. -/
structure JSError where
  name : String
  message : String
deriving DecidableEq, Repr

/-- JS `new Error(msg)`. -/
def mkError (msg : String) : JSError := ⟨"Error", msg⟩

/-- One entry of a job record's `progress_log` (shape `\x7bmessage\x7d`). -/
structure ProgEntry where
  message : String
deriving DecidableEq, Repr

/-- The JSON job record returned by `GET /api/job/:id`
(app.js, `pollJobCompletion`).  `α` is the type of the `result` payload,
passed through verbatim. -/
structure JobRecord (α : Type) where
  status : Option String := none
  error : Option String := none
  progress_log : List ProgEntry := []
  result : Option α := none
deriving DecidableEq

/-- Outcome of a poll-mode `pollJobCompletion` run, together with the
progress entries delivered to `onProgress` (in order) and, on resolution,
the elapsed model time in milliseconds. -/
inductive PollResult (α : Type) where
  | resolved (r : Option α) (delivered : List ProgEntry) (elapsedMs : Nat)
  | rejectedE (e : JSError) (delivered : List ProgEntry)
  | outOfScript (delivered : List ProgEntry)
deriving DecidableEq

/-- The fixed poll interval of `pollJobCompletion` (app.js line 94). -/
def pollIntervalMs : Nat := 1000

/-- The `catch` clause of `pollJobCompletion` (app.js lines 126-131):
an error whose message contains `"Job not found"` is replaced by a fresh
`Error` reading `"Job expired or not found"`; every other error is
rethrown unchanged. -/
def remapPollError (e : JSError) : JSError :=
  if strIncludes e.message "Job not found" then mkError "Job expired or not found" else e

/-- The polling loop of `pollJobCompletion` (app.js lines 96-134), one
scripted backend response per iteration.  `onProg` records whether an
`onProgress` callback was supplied.  Per cycle, in source order: the
timeout guard, the error-without-status check, delivery of the most
recent `progress_log` entry, then the terminal-status checks; every
throw inside the `try` passes through `remapPollError`. -/
def pollLoop {α : Type} (onProg : Bool) (maxWaitMs : Nat) :
    Nat → List ProgEntry → List (JobRecord α) → PollResult α
  | elapsed, delivered, [] =>
    if maxWaitMs ≤ elapsed then
      .rejectedE (mkError "Timeout waiting for job completion") delivered
    else
      .outOfScript delivered
  | elapsed, delivered, job :: rest =>
    if maxWaitMs ≤ elapsed then
      .rejectedE (mkError "Timeout waiting for job completion") delivered
    else if truthyS job.error && !truthyS job.status then
      .rejectedE (remapPollError (mkError (job.error.getD ""))) delivered
    else
      let delivered2 :=
        if onProg then
          match job.progress_log.getLast? with
          | some e => delivered ++ [e]
          | none => delivered
        else delivered
      if job.status = some "completed" then
        .resolved job.result delivered2 elapsed
      else if job.status = some "failed" then
        .rejectedE (remapPollError (mkError (orTruthy job.error "Job failed"))) delivered2
      else if job.status = some "cancelled" then
        .rejectedE (remapPollError (mkError "Job was cancelled")) delivered2
      else
        pollLoop onProg maxWaitMs (elapsed + pollIntervalMs) delivered2 rest

/-- `pollJobCompletion(jobId, onProgress, maxWaitMs)` (app.js lines
92-135) run against a script of backend responses. -/
def pollJobCompletion {α : Type} (onProg : Bool) (maxWaitMs : Nat)
    (responses : List (JobRecord α)) : PollResult α :=
  pollLoop onProg maxWaitMs 0 [] responses

/-- The generic-error display decision of `processContent` (app.js lines
625-634): `showError` runs only when the error message contains neither
`"cancelled"` nor `"stopped"`. -/
def showsGenericError (e : JSError) : Bool :=
  !(strIncludes e.message "cancelled") && !(strIncludes e.message "stopped")

/-- A frame delivered on the `GET /api/job/:id/stream` channel
(api.js, `streamJobProgress` onmessage handler).  `α` is the type of the
`result` payload of a `completed` frame. -/
structure Frame (α : Type) where
  heartbeat : Bool := false
  status : Option String := none
  message : Option String := none
  result : Option α := none
  error : Option String := none
deriving DecidableEq

/-- How the stream settles: `resolve(data.result)` or `reject(err)`;
`pending` marks a run whose scripted events end with the channel still
open and the promise unsettled. -/
inductive StreamOutcome (α : Type) where
  | resolved (r : Option α)
  | rejectedE (e : JSError)
  | pending
deriving DecidableEq

/-- The two trailing `if`s of the onmessage handler (api.js lines 43-49):
a truthy `message` field is forwarded verbatim; a truthy `status` field
synthesizes a generic line only when the `message` field is falsy. -/
def nonTerminalLines {α : Type} (f : Frame α) : List String :=
  (if truthyS f.message then [f.message.getD ""] else []) ++
    (if truthyS f.status && !truthyS f.message then ["🔄 " ++ f.status.getD ""] else [])

/-- Effect of one frame in the onmessage handler. -/
inductive FrameAction (α : Type) where
  | silent
  | emit (lines : List String)
  | settleA (line : String) (o : StreamOutcome α)
deriving DecidableEq

/-- The onmessage dispatch of `streamJobProgress` (api.js lines 15-50),
in source order: heartbeat, the three terminal statuses (each adds one
progress line, closes the channel and settles), then the non-terminal
message/status lines. -/
def handleFrame {α : Type} (emoji : String) (f : Frame α) : FrameAction α :=
  if f.heartbeat then .silent
  else if f.status = some "completed" then
    .settleA (emoji ++ " Complete!") (.resolved f.result)
  else if f.status = some "failed" then
    .settleA (emoji ++ " Failed: " ++ orTruthy f.error "Unknown error")
      (.rejectedE (mkError (orTruthy f.error "Job failed")))
  else if f.status = some "cancelled" then
    .settleA (emoji ++ " Job cancelled") (.rejectedE (mkError "Job cancelled by user"))
  else .emit (nonTerminalLines f)

/-- What one connection attempt delivers: a frame, or a transport error
firing the onerror handler. -/
inductive StreamEvent (α : Type) where
  | frame (f : Frame α)
  | chanError
deriving DecidableEq

/-- How one connection attempt ends, with the progress lines it emitted:
a terminal frame settled the promise (the channel is closed and later
events are never dispatched), the onerror handler fired (closing the
channel), or the script ran out with the channel still open. -/
inductive AttemptEnd (α : Type) where
  | settled (lines : List String) (o : StreamOutcome α)
  | errored (lines : List String)
  | ranOut (lines : List String)
deriving DecidableEq

/-- Runs the onmessage handler over one connection attempt's scripted
events.  Processing stops at the first terminal frame or transport error
because both close the `EventSource`. -/
def processEvents {α : Type} (emoji : String) : List (StreamEvent α) → AttemptEnd α
  | [] => .ranOut []
  | .chanError :: _ => .errored []
  | .frame f :: rest =>
    match handleFrame emoji f with
    | .silent => processEvents emoji rest
    | .emit ls =>
      match processEvents emoji rest with
      | .settled ls2 o => .settled (ls ++ ls2) o
      | .errored ls2 => .errored (ls ++ ls2)
      | .ranOut ls2 => .ranOut (ls ++ ls2)
    | .settleA line o => .settled [line] o

/-- `maxReconnects` constant of `streamJobProgress` (api.js line 8). -/
def maxReconnects : Nat := 3

/-- `baseDelay` constant of `streamJobProgress` (api.js line 9). -/
def baseDelay : Nat := 2000

/-- Progress line emitted by the onerror handler before reconnecting
(api.js line 59). -/
def reconnectLine (delay : Nat) : String :=
  "⚠️ Connection lost. Reconnecting in " ++ toString (delay / 1000) ++ "s..."

/-- Progress line emitted when the reconnect ceiling is exceeded
(api.js line 68). -/
def exhaustedLine : String :=
  "❌ Connection failed after " ++ toString maxReconnects ++ " attempts"

/-- Result of a `streamJobProgress` run: how the single outer promise
settles, all progress lines in order, the reconnection delays incurred,
and the final contents of `AppState.activeEventSources` restricted to
the channels this run opened — one `Bool` per channel pushed, in open
order, `true` when the channel was closed.  The source pushes every new
`EventSource` onto `AppState.activeEventSources` (api.js line 13) and
closes it on terminal frames and transport errors, but contains no
operation removing it from the collection. -/
structure StreamResult (α : Type) where
  outcome : StreamOutcome α
  lines : List String
  delays : List Nat
  chans : List Bool
deriving DecidableEq

/-- `streamJobProgress(jobId, emoji, reconnectAttempts)` (api.js lines
7-73) run against a script holding one event list per connection
attempt.  On a transport error with `reconnectAttempts < maxReconnects`
it waits `baseDelay * 2 ^ reconnectAttempts` and recurses with the
counter incremented, forwarding the recursive settlement to the single
outer promise; past the ceiling it rejects. -/
def streamJobProgress {α : Type} (emoji : String) :
    Nat → List (List (StreamEvent α)) → StreamResult α
  | _, [] => ⟨.pending, [], [], []⟩
  | reconnectAttempts, ev :: rest =>
    match processEvents emoji ev with
    | .settled ls o => ⟨o, ls, [], [true]⟩
    | .ranOut ls => ⟨.pending, ls, [], [false]⟩
    | .errored ls =>
      if reconnectAttempts < maxReconnects then
        let delay := baseDelay * 2 ^ reconnectAttempts
        let r := streamJobProgress emoji (reconnectAttempts + 1) rest
        ⟨r.outcome, ls ++ [reconnectLine delay] ++ r.lines, delay :: r.delays, true :: r.chans⟩
      else
        ⟨.rejectedE (mkError "Stream connection failed after retries"),
          ls ++ [exhaustedLine], [], [true]⟩

/-- The JSON body answering a start request (`POST /api/scrape-url`,
`POST /api/check`, ...): HTTP success flag and optional `error`,
`message` and `job_id` fields. -/
structure StartResponse where
  ok : Bool
  error : Option String := none
  message : Option String := none
  job_id : Option String := none
deriving DecidableEq

/-- The launch phase of `fetchArticleFromUrl` (app.js lines 156-179):
a non-ok response throws `error.error || error.message || 'Failed to
start fetch'`; a falsy `job_id` throws `'No job ID returned'`; otherwise
the job id is returned. -/
def fetchArticleStart (resp : StartResponse) : Except JSError String :=
  if !resp.ok then
    .error (mkError (orTruthy resp.error (orTruthy resp.message "Failed to start fetch")))
  else if !truthyS resp.job_id then
    .error (mkError "No job ID returned")
  else
    .ok (resp.job_id.getD "")

/-- The launch phase of `runLLMVerification` (api.js lines 95-115): a
non-ok response throws `error.error || 'LLM verification failed'`; an ok
response is accepted and `data.job_id` is used as-is, with no check that
a job id is present. -/
def runLLMVerificationStart (resp : StartResponse) : Except JSError (Option String) :=
  if !resp.ok then
    .error (mkError (orTruthy resp.error "LLM verification failed"))
  else
    .ok resp.job_id

/-- Boolean success test on `Except`. -/
def exceptOk {ε σ : Type} : Except ε σ → Bool
  | .ok _ => true
  | .error _ => false

/-- Result of the external WHATWG `new URL(...)` constructor, restricted
to the field the code reads.  URL parsing is an external collaborator;
the parse function is a parameter, with `none` standing for the
constructor throwing. -/
structure URLRec where
  protocol : String
deriving DecidableEq

/-- `isValidUrl(string)` (app.js lines 20-27): parse the string with the
external URL constructor inside a `try`; on success test the protocol
against `http:` and `https:`, on a parse failure return `false`. -/
def isValidUrl (parseURL : String → Option URLRec) (s : String) : Bool :=
  match parseURL s with
  | some url => url.protocol == "http:" || url.protocol == "https:"
  | none => false

/-- Result payload of the scrape job consumed by `fetchArticleFromUrl`:
the `success` flag plus the extracted `content`. -/
structure ScrapeResult where
  success : Bool
  content : String
deriving DecidableEq

/-- A stream-connection script in which every attempt fails immediately
with a transport error. -/
def alwaysErrorScript : List (List (StreamEvent Unit)) :=
  [[.chanError], [.chanError], [.chanError], [.chanError]]

/-- A stream-connection script with a single transport error followed by
a clean completion on the reconnected channel. -/
def oneErrorThenComplete : List (List (StreamEvent Unit)) :=
  [[.chanError], [.frame { status := some "completed", result := some () }]]

/-- A job record in the `running` state with no progress entries. -/
def runningRec : JobRecord ScrapeResult := { status := some "running" }

/-- A completed job record carrying the result payload
`success: true, content: "X"`. -/
def completedXRec : JobRecord ScrapeResult :=
  { status := some "completed", result := some ⟨true, "X"⟩ }

/-- C1: for a stream channel that errors on every connection attempt,
`streamJobProgress` settles its single outer promise by rejecting with
the stream-exhausted error (message `"Stream connection failed after
retries"`) after exactly 3 reconnect attempts — 4 channels opened in all
— with inter-attempt delays of 2000 ms, 4000 ms and 8000 ms (binary
exponential backoff from the 2-second base, the counter incrementing
per retry within the chain); and this exhaustion is distinct from a
single transport error, which alone causes no rejection: a run that
errors once and then completes resolves normally. -/
theorem stream_exhausted_after_three_reconnects :
    (streamJobProgress "⏳" 0 alwaysErrorScript).outcome
        = .rejectedE (mkError "Stream connection failed after retries") ∧
    (streamJobProgress "⏳" 0 alwaysErrorScript).delays = [2000, 4000, 8000] ∧
    (streamJobProgress "⏳" 0 alwaysErrorScript).chans.length = 4 ∧
    (streamJobProgress "⏳" 0 oneErrorThenComplete).outcome = .resolved (some ()) :=
  ⟨rfl, rfl, rfl, rfl⟩

/-- C4: `pollJobCompletion` polls at the fixed 1-second interval; against
a backend answering `running` for 3 polls and then `completed` with
result `success: true, content: "X"`, it resolves with exactly that
payload after 3 poll intervals of model time. -/
theorem poll_resolves_after_three_running_cycles :
    pollJobCompletion true 120000 [runningRec, runningRec, runningRec, completedXRec]
        = .resolved (some ⟨true, "X"⟩) [] (3 * pollIntervalMs) ∧
    pollIntervalMs = 1000 :=
  ⟨rfl, rfl⟩

/-- C2 counterexample: backend `Failed` and `Cancelled` outcomes reject
with errors of the same kind — both are plain `Error` values — and the
generic-error suppression of `processContent` works by substring
matching on the message, not by kind: a `Failed` job whose backend error
message happens to contain the word `"cancelled"` is suppressed from
generic error display exactly as a real cancellation would be. -/
theorem failed_error_suppressed_like_cancelled :
    pollJobCompletion true 120000
        [({ status := some "failed", error := some "upstream cancelled the request" }
          : JobRecord Unit)]
        = .rejectedE (mkError "upstream cancelled the request") [] ∧
    pollJobCompletion true 120000 [({ status := some "cancelled" } : JobRecord Unit)]
        = .rejectedE (mkError "Job was cancelled") [] ∧
    (mkError "upstream cancelled the request").name = (mkError "Job was cancelled").name ∧
    showsGenericError (mkError "upstream cancelled the request") = false :=
  ⟨rfl, rfl, rfl, rfl⟩

/-- C2 amended: a backend-`Failed` job rejects with `job.error` (default
`"Job failed"`) and a backend-`Cancelled` job rejects with `"Job was
cancelled"`; the two errors carry the same kind (`"Error"`) and differ
only in message text, and the cancellation outcome is suppressed from
generic error display by substring matching on the message (`"cancelled"`
or `"stopped"`), not by inspecting an error kind. -/
theorem failed_and_cancelled_distinct_only_by_message (err : Option String)
    (rest : List (JobRecord Unit))
    (hne : strIncludes (orTruthy err "Job failed") "Job not found" = false) :
    pollJobCompletion true 120000
        (({ status := some "failed", error := err } : JobRecord Unit) :: rest)
        = .rejectedE (mkError (orTruthy err "Job failed")) [] ∧
    pollJobCompletion true 120000 (({ status := some "cancelled" } : JobRecord Unit) :: rest)
        = .rejectedE (mkError "Job was cancelled") [] ∧
    (mkError (orTruthy err "Job failed")).name = (mkError "Job was cancelled").name ∧
    showsGenericError (mkError "Job was cancelled") = false := by
  have hc : strIncludes "Job was cancelled" "Job not found" = false := by decide
  refine ⟨?_, ?_, rfl, by decide⟩
  · simp [pollJobCompletion, pollLoop, truthyS, remapPollError, mkError, hne]
  · simp [pollJobCompletion, pollLoop, truthyS, remapPollError, mkError, hc]

/-- C2 witness: the amended theorem applied to a failed job with backend
error `"boom"`. -/
theorem failed_and_cancelled_distinct_only_by_message_witness :
    strIncludes (orTruthy (some "boom") "Job failed") "Job not found" = false ∧
    (pollJobCompletion true 120000
        [({ status := some "failed", error := some "boom" } : JobRecord Unit)]
        = .rejectedE (mkError (orTruthy (some "boom") "Job failed")) [] ∧
      pollJobCompletion true 120000 [({ status := some "cancelled" } : JobRecord Unit)]
        = .rejectedE (mkError "Job was cancelled") [] ∧
      (mkError (orTruthy (some "boom") "Job failed")).name
        = (mkError "Job was cancelled").name ∧
      showsGenericError (mkError "Job was cancelled") = false) :=
  ⟨by decide, failed_and_cancelled_distinct_only_by_message (some "boom") [] (by decide)⟩

/-- C3 counterexample: a job whose stream completes on the first attempt
settles, and its channel — closed by the terminal frame — is still
present in the `AppState.activeEventSources` collection afterwards: the
channel is never removed from the collection on terminal resolution. -/
theorem settled_channel_still_tracked :
    (streamJobProgress "⏳" 0
        [[.frame { status := some "completed", result := some () }]]).outcome
      = .resolved (some ()) ∧
    (streamJobProgress "⏳" 0
        ([[.frame { status := some "completed", result := some () }]]
          : List (List (StreamEvent Unit)))).chans = [true] :=
  ⟨rfl, rfl⟩

/-- C3 amended: every channel the stream client opens is appended to
`AppState.activeEventSources`, and whenever the job settles (resolves or
rejects) every channel opened by the run has been closed — but none has
been removed from the collection: the tracked list is non-empty after
settlement, so closed channels outlive their jobs until an external
`closeAllStreams` empties the registry. -/
theorem channels_closed_but_never_removed (script : List (List (StreamEvent Unit)))
    (emoji : String) (a : Nat)
    (h : (streamJobProgress emoji a script).outcome ≠ .pending) :
    (streamJobProgress emoji a script).chans ≠ [] ∧
      ∀ b ∈ (streamJobProgress emoji a script).chans, b = true := by
  induction script generalizing a with
  | nil => simp [streamJobProgress] at h
  | cons ev rest ih =>
    rcases hpe : processEvents emoji ev with ⟨ls, o⟩ | ls | ls
    · simp [streamJobProgress, hpe]
    · by_cases ha : a < maxReconnects
      · have h2 : (streamJobProgress emoji (a + 1) rest).outcome ≠ .pending := by
          simp [streamJobProgress, hpe, ha] at h
          exact h
        have := ih (a + 1) h2
        simp [streamJobProgress, hpe, ha]
        intro hb
        exact Bool.false_ne_true (this.2 false hb)
      · simp [streamJobProgress, hpe, ha]
    · simp [streamJobProgress, hpe] at h

/-- C3 witness: the amended theorem applied to a run that completes on
its first attempt. -/
theorem channels_closed_but_never_removed_witness :
    (streamJobProgress "⏳" 0
        ([[.frame { status := some "completed", result := some () }]]
          : List (List (StreamEvent Unit)))).outcome ≠ .pending ∧
    ((streamJobProgress "⏳" 0
        ([[.frame { status := some "completed", result := some () }]]
          : List (List (StreamEvent Unit)))).chans ≠ [] ∧
      ∀ b ∈ (streamJobProgress "⏳" 0
        ([[.frame { status := some "completed", result := some () }]]
          : List (List (StreamEvent Unit)))).chans, b = true) :=
  ⟨by decide,
    channels_closed_but_never_removed
      [[.frame { status := some "completed", result := some () }]] "⏳" 0 (by decide)⟩

/-- Heartbeat frames are dispatched to the early `return` and leave the
rest of the event list to be processed unchanged. -/
theorem processEvents_heartbeats {α : Type} (emoji : String) (n : Nat)
    (evs : List (StreamEvent α)) :
    processEvents emoji (List.replicate n (.frame { heartbeat := true }) ++ evs)
      = processEvents emoji evs := by
  induction n with
  | zero => simp
  | succ k ih => simp [List.replicate_succ, processEvents, handleFrame, ih]

/-- C5 counterexample: feeding only heartbeat frames before a terminal
`completed` frame does not yield zero progress invocations — the
terminal frame itself emits one completion line, so the run produces
exactly one progress call, not none. -/
theorem heartbeats_then_terminal_emits_one_line :
    (streamJobProgress "⏳" 0
        [[.frame { heartbeat := true }, .frame { heartbeat := true },
          .frame { status := some "completed", result := some () }]]).lines
      = ["⏳ Complete!"] ∧
    (streamJobProgress "⏳" 0
        ([[.frame { heartbeat := true }, .frame { heartbeat := true },
          .frame { status := some "completed", result := some () }]]
          : List (List (StreamEvent Unit)))).lines ≠ [] :=
  ⟨rfl, by decide⟩

/-- C5 amended: per-frame dispatch of the stream client — a heartbeat
frame produces zero progress invocations; a frame with neither a status
nor a message field is ignored; a frame with only a (truthy,
non-terminal) status synthesizes the generic line `"🔄 " ++ status`; a
frame with a message forwards it verbatim; and in a run of heartbeat
frames followed by a terminal `completed` frame the promise settles
exactly once (frames after the terminal one are never processed), the
channel is closed, and the only progress line of the whole run is the
single completion line emitted by the terminal frame itself. -/
theorem frame_dispatch_amended (n : Nat) (s m : String)
    (post : List (StreamEvent Unit))
    (hs : s ≠ "completed" ∧ s ≠ "failed" ∧ s ≠ "cancelled" ∧ s ≠ "") (hm : m ≠ "") :
    handleFrame "⏳" ({ heartbeat := true } : Frame Unit) = .silent ∧
    handleFrame "⏳" ({} : Frame Unit) = .emit [] ∧
    handleFrame "⏳" ({ status := some s } : Frame Unit) = .emit ["🔄 " ++ s] ∧
    handleFrame "⏳" ({ message := some m } : Frame Unit) = .emit [m] ∧
    (streamJobProgress "⏳" 0
        [List.replicate n (.frame { heartbeat := true })
          ++ [.frame { status := some "completed", result := some () }] ++ post]).outcome
      = .resolved (some ()) ∧
    (streamJobProgress "⏳" 0
        [List.replicate n (.frame { heartbeat := true })
          ++ [.frame { status := some "completed", result := some () }] ++ post]).lines
      = ["⏳ Complete!"] ∧
    (streamJobProgress "⏳" 0
        [List.replicate n (.frame { heartbeat := true })
          ++ [.frame ({ status := some "completed", result := some () } : Frame Unit)]
          ++ post]).chans
      = [true] := by
  obtain ⟨h1, h2, h3, h4⟩ := hs
  refine ⟨rfl, rfl, ?_, ?_, ?_, ?_, ?_⟩
  · simp [handleFrame, nonTerminalLines, truthyS, h1, h2, h3, h4]
  · simp [handleFrame, nonTerminalLines, truthyS, hm]
  all_goals
    simp [streamJobProgress, List.append_assoc, processEvents_heartbeats,
      processEvents, handleFrame]

/-- C5 witness: the amended theorem applied to two heartbeats, the
status `"working"`, the message `"hello"` and one trailing frame. -/
theorem frame_dispatch_amended_witness :
    ("working" ≠ "completed" ∧ "working" ≠ "failed" ∧ "working" ≠ "cancelled"
        ∧ "working" ≠ "") ∧ "hello" ≠ "" ∧
    (streamJobProgress "⏳" 0
        [List.replicate 2 (.frame { heartbeat := true })
          ++ [.frame ({ status := some "completed", result := some () } : Frame Unit)]
          ++ [.frame { message := some "late" }]]).lines
      = ["⏳ Complete!"] :=
  ⟨by decide, by decide,
    (frame_dispatch_amended 2 "working" "hello" [.frame { message := some "late" }]
      (by decide) (by decide)).2.2.2.2.2.1⟩

/-- C6 counterexample: the poll loop's "job not found" handling is
message-text based, not kind based — the remapped expired error carries
the same kind (`"Error"`) as a generic transport failure, so error-kind
inspection cannot distinguish them, and the substring detection even
fires on a generic failure whose message merely contains the phrase
`"Job not found"`. -/
theorem expired_error_same_kind_as_transport :
    pollJobCompletion true 120000 [({ error := some "Job not found" } : JobRecord Unit)]
        = .rejectedE (mkError "Job expired or not found") [] ∧
    pollJobCompletion true 120000 [({ error := some "connection reset" } : JobRecord Unit)]
        = .rejectedE (mkError "connection reset") [] ∧
    (mkError "Job expired or not found").name = (mkError "connection reset").name ∧
    remapPollError (mkError "proxy: Job not found today")
        = mkError "Job expired or not found" :=
  ⟨rfl, rfl, rfl, rfl⟩

/-- C6 amended: during polling, an error response whose message contains
the substring `"Job not found"` is remapped (by substring matching on
the message) to an error with message `"Job expired or not found"`; the
remapped error carries the same kind `"Error"` as every other error the
poll loop produces, so it is distinguishable from a generic transport
failure only by its message text. -/
theorem job_not_found_remap_by_message (e : String) (h : e ≠ "") :
    pollJobCompletion true 120000 [({ error := some e } : JobRecord Unit)]
        = .rejectedE (remapPollError (mkError e)) [] ∧
    remapPollError (mkError e)
        = (if strIncludes e "Job not found" then mkError "Job expired or not found"
            else mkError e) ∧
    (remapPollError (mkError e)).name = "Error" := by
  refine ⟨?_, by simp [remapPollError, mkError], ?_⟩
  · simp [pollJobCompletion, pollLoop, truthyS, h]
  · unfold remapPollError
    split <;> rfl

/-- C6 witness: the amended theorem applied to the backend error message
`"Job not found"`. -/
theorem job_not_found_remap_by_message_witness :
    "Job not found" ≠ "" ∧
    (pollJobCompletion true 120000
        [({ error := some "Job not found" } : JobRecord Unit)]
        = .rejectedE (remapPollError (mkError "Job not found")) [] ∧
      remapPollError (mkError "Job not found")
        = (if strIncludes "Job not found" "Job not found"
            then mkError "Job expired or not found" else mkError "Job not found") ∧
      (remapPollError (mkError "Job not found")).name = "Error") :=
  ⟨by decide, job_not_found_remap_by_message "Job not found" (by decide)⟩

/-- C7: in poll mode, a cycle whose job record has a non-empty progress
log delivers exactly the most recent log entry to `onProgress` (older
entries of the cycle are dropped: the delivered list grows by that one
entry only, and the loop continues); and a transport-level error
response lacking any status field rejects the whole poll immediately,
with no retry, whatever responses would have followed. -/
theorem poll_progress_last_entry_and_fatal_error (log : List ProgEntry) (e : ProgEntry)
    (hlog : log.getLast? = some e) (err : String) (herr : err ≠ "")
    (hnf : strIncludes err "Job not found" = false) (rest : List (JobRecord Unit)) :
    pollJobCompletion true 120000
        (({ status := some "running", progress_log := log } : JobRecord Unit) :: rest)
        = pollLoop true 120000 pollIntervalMs [e] rest ∧
    pollJobCompletion true 120000 (({ error := some err } : JobRecord Unit) :: rest)
        = .rejectedE (mkError err) [] := by
  constructor
  · simp [pollJobCompletion, pollLoop, truthyS, hlog, pollIntervalMs]
  · simp [pollJobCompletion, pollLoop, truthyS, herr, remapPollError, mkError, hnf]

/-- C7 witness: the theorem applied to a two-entry progress log and the
transport error `"connection reset"`. -/
theorem poll_progress_last_entry_and_fatal_error_witness :
    ([ProgEntry.mk "fetching", ProgEntry.mk "scoring"].getLast?
        = some (ProgEntry.mk "scoring")) ∧
    (pollJobCompletion true 120000
        [({ status := some "running",
            progress_log := [ProgEntry.mk "fetching", ProgEntry.mk "scoring"] }
          : JobRecord Unit)]
        = pollLoop true 120000 pollIntervalMs [ProgEntry.mk "scoring"] [] ∧
      pollJobCompletion true 120000 [({ error := some "connection reset" } : JobRecord Unit)]
        = .rejectedE (mkError "connection reset") []) :=
  ⟨by decide,
    poll_progress_last_entry_and_fatal_error
      [ProgEntry.mk "fetching", ProgEntry.mk "scoring"] (ProgEntry.mk "scoring")
      (by decide) "connection reset" (by decide) (by decide) []⟩

/-- C8 counterexample: `runLLMVerification` accepts an HTTP-ok start
response that omits the job id entirely — the launch does not fail, and
the pipeline proceeds with no job id. -/
theorem llm_launch_accepts_missing_job_id :
    runLLMVerificationStart { ok := true } = .ok none ∧
    ({ ok := true } : StartResponse).job_id = none :=
  ⟨rfl, rfl⟩

/-- C8 amended: the launch phase of `fetchArticleFromUrl` succeeds
exactly when the start request is HTTP-ok and the response carries a
truthy job id — so it fails on a non-success status or a missing job id
— while the launch phase of `runLLMVerification` succeeds exactly when
the start request is HTTP-ok: it fails on a non-success status but
performs no job-id check. -/
theorem launch_failure_conditions (resp : StartResponse) :
    (exceptOk (fetchArticleStart resp) = true
        ↔ (resp.ok = true ∧ truthyS resp.job_id = true)) ∧
    (exceptOk (runLLMVerificationStart resp) = true ↔ resp.ok = true) := by
  obtain ⟨ok, err, msg, jid⟩ := resp
  cases ok
  · simp [fetchArticleStart, runLLMVerificationStart, exceptOk]
  · cases h : truthyS jid <;>
      simp [fetchArticleStart, runLLMVerificationStart, exceptOk, h]

/-- C9: a stream frame carrying both a truthy non-terminal status and a
truthy message forwards only the message, verbatim and exactly once; the
synthesized `"🔄 " ++ status` line is produced only when the message
field is falsy. -/
theorem message_suppresses_status_line (s m : String)
    (hs : s ≠ "completed" ∧ s ≠ "failed" ∧ s ≠ "cancelled") (hm : m ≠ "") :
    handleFrame "⏳" ({ status := some s, message := some m } : Frame Unit) = .emit [m] ∧
    nonTerminalLines ({ status := some s, message := some m } : Frame Unit) = [m] ∧
    (s ≠ "" → nonTerminalLines ({ status := some s } : Frame Unit) = ["🔄 " ++ s]) := by
  obtain ⟨h1, h2, h3⟩ := hs
  refine ⟨?_, ?_, ?_⟩
  · simp [handleFrame, nonTerminalLines, truthyS, h1, h2, h3, hm]
  · simp [nonTerminalLines, truthyS, hm]
  · intro h4
    simp [nonTerminalLines, truthyS, h4]

/-- C9 witness: the theorem applied to the status `"running"` and the
message `"step 2 of 5"`. -/
theorem message_suppresses_status_line_witness :
    ("running" ≠ "completed" ∧ "running" ≠ "failed" ∧ "running" ≠ "cancelled") ∧
    "step 2 of 5" ≠ "" ∧
    handleFrame "⏳" ({ status := some "running", message := some "step 2 of 5" }
        : Frame Unit)
      = .emit ["step 2 of 5"] :=
  ⟨by decide, by decide,
    (message_suppresses_status_line "running" "step 2 of 5" (by decide) (by decide)).1⟩

/-- C10: `isValidUrl` is total — it is a Boolean-valued function on all
input strings, the URL constructor's throw being absorbed by the
`try`/`catch` as a `none` parse — and it returns `true` exactly when the
external URL parse succeeds with a protocol of `http:` or `https:`. -/
theorem isValidUrl_iff_http_or_https (parseURL : String → Option URLRec) (s : String) :
    isValidUrl parseURL s = true
      ↔ ∃ u, parseURL s = some u ∧ (u.protocol = "http:" ∨ u.protocol = "https:") := by
  cases h : parseURL s with
  | none => simp [isValidUrl, h]
  | some u => simp [isValidUrl, h]

end Veriflow
